import Mathlib

/-!
Shallow embedding of the exit-strategy core of the expo-exit-app repository
(src/src/ExitApp.ts and src/src/types.ts).

The class ExitApp consumes external runtime capabilities: the BackHandler
native-exit primitive, the expo-updates reload subsystem, the optional
global ErrorUtils fatal-error hook, and setTimeout. We model that external
state as a Runtime record, thrown JavaScript values as JSError, and each
method as a pure function from the Runtime to an ExecOutcome: the returned
ExitResult, the list of synchronous side effects (events) performed during
the call, and the list of crash timers scheduled but not yet fired when the
call returns.
-/

namespace ExitApp

/-- ExitStrategy from types.ts: the closed enumeration of four variants. -/
inductive ExitStrategy where
  | backHandler
  | reload
  | forceCrash
  | graceful
deriving Repr, DecidableEq

/-- ExitOptions from types.ts: three independent optional fields. A field
holding none models a field the caller omitted. -/
structure ExitOptions where
  errorMessage : Option String := none
  useReload : Option Bool := none
  forceDelay : Option Nat := none
deriving Repr, DecidableEq

/-- The merged configuration Required ExitOptions consumed by the strategy
paths once defaults are filled in. -/
structure RequiredExitOptions where
  errorMessage : String
  useReload : Bool
  forceDelay : Nat
deriving Repr, DecidableEq

/-- ExitResult from types.ts. The error field is optional. -/
structure ExitResult where
  success : Bool
  strategy : ExitStrategy
  error : Option String
deriving Repr, DecidableEq

/-- A thrown JavaScript value: either an Error instance carrying a message,
or some other value with no message. This drives the
`error instanceof Error ? error.message : fallback` pattern of the source. -/
inductive JSError where
  | jsError (message : String)
  | nonError
deriving Repr, DecidableEq

/-- Evaluates `e instanceof Error ? e.message : fallback`. -/
def messageOr (fallback : String) : JSError → String
  | .jsError m => m
  | .nonError => fallback

/-- Outcome of invoking an external primitive: it either completes, or it
throws (for an async primitive, rejects with) a JavaScript value. -/
inductive CallOutcome where
  | ok
  | throws (e : JSError)
deriving Repr, DecidableEq

/-- The external capability state the class reads, per call.

backHandlerCallable models `typeof BackHandler?.exitApp === 'function'`;
when it is false, calling `BackHandler.exitApp()` raises a TypeError whose
host-defined message is backHandlerTypeErrorMessage. backHandlerOutcome is
what an actual invocation does when the primitive is callable.

updatesIsEnabled models `Updates.isEnabled`; reloadCallable models
`typeof Updates.reloadAsync === 'function'`; when isEnabled is true but the
primitive is not callable, `Updates.reloadAsync()` raises a TypeError whose
message is reloadTypeErrorMessage. reloadOutcome is the settlement of the
awaited promise when the primitive is callable and invoked.

errorUtilsHookPresent models the presence of the global
`ErrorUtils.reportFatalError` hook consulted inside the delayed callback.
setTimeoutOutcome models whether the scheduling step itself throws
synchronously. -/
structure Runtime where
  backHandlerCallable : Bool
  backHandlerOutcome : CallOutcome
  backHandlerTypeErrorMessage : String
  updatesIsEnabled : Bool
  reloadCallable : Bool
  reloadOutcome : CallOutcome
  reloadTypeErrorMessage : String
  errorUtilsHookPresent : Bool
  setTimeoutOutcome : CallOutcome
deriving Repr, DecidableEq

/-- Observable side effects of a call. invokeBackHandler and invokeReload
record an actual invocation of the respective primitive; scheduleCrash
records that setTimeout registered the delayed fatal action;
reportFatalError and throwUnhandled are the two ways the delayed callback
can raise the fatal error once the timer fires. -/
inductive Event where
  | invokeBackHandler
  | invokeReload
  | scheduleCrash (message : String) (delay : Nat)
  | reportFatalError (message : String)
  | throwUnhandled (message : String)
deriving Repr, DecidableEq

/-- Outcome of executing one of the methods: the ExitResult it returns, the
synchronous events it performed, and the crash timers still pending (not
yet fired) at the moment it returns. -/
structure ExecOutcome where
  result : ExitResult
  events : List Event
  pending : List (String × Nat)
deriving Repr, DecidableEq

/-- Sequences two executions: events and pending timers accumulate, the
result of the second stands. -/
def seqOutcome (a b : ExecOutcome) : ExecOutcome :=
  { result := b.result, events := a.events ++ b.events, pending := a.pending ++ b.pending }

/-- Firing the pending timers after the call has returned: each delayed
callback consults the global ErrorUtils hook and either reports a fatal
error through it or throws an unhandled error, both carrying the scheduled
message. This is what happens strictly after the initiating call returned. -/
def runPending (rt : Runtime) (pending : List (String × Nat)) : List Event :=
  pending.map (fun p =>
    if rt.errorUtilsHookPresent then Event.reportFatalError p.1 else Event.throwUnhandled p.1)

/-- The private static defaultOptions record of ExitApp. -/
def defaultOptions : RequiredExitOptions :=
  { errorMessage := "App terminated", useReload := true, forceDelay := 100 }

/-- The spread merge from the source, written at the top of exit and
exitWithStrategy as a record spread of the defaults then the options:
every field the caller provided overrides the default, every omitted field
keeps the default. -/
def mergeOptions (options : ExitOptions) : RequiredExitOptions :=
  { errorMessage := options.errorMessage.getD defaultOptions.errorMessage,
    useReload := options.useReload.getD defaultOptions.useReload,
    forceDelay := options.forceDelay.getD defaultOptions.forceDelay }

/-- A fully-determined configuration viewed back as an options record with
every field present, as when exit forwards its merged config onward. -/
def requiredToOptions (c : RequiredExitOptions) : ExitOptions :=
  { errorMessage := some c.errorMessage, useReload := some c.useReload,
    forceDelay := some c.forceDelay }

/-- exitWithBackHandler: calls BackHandler.exitApp() inside try/catch. A
completed call is a success; a throw is caught and reported with the thrown
message or the fallback text. When the primitive is not callable the call
expression itself raises a TypeError, an Error instance, so its message is
reported and no primitive is ever invoked. -/
def exitWithBackHandler (rt : Runtime) : ExecOutcome :=
  if rt.backHandlerCallable then
    match rt.backHandlerOutcome with
    | .ok =>
      { result := { success := true, strategy := .backHandler, error := none },
        events := [Event.invokeBackHandler], pending := [] }
    | .throws e =>
      { result := { success := false, strategy := .backHandler,
                    error := some (messageOr "BackHandler failed" e) },
        events := [Event.invokeBackHandler], pending := [] }
  else
    { result := { success := false, strategy := .backHandler,
                  error := some rt.backHandlerTypeErrorMessage },
      events := [], pending := [] }

/-- exitWithReload: inside try/catch, if Updates.isEnabled it awaits
Updates.reloadAsync() and reports success, a rejection being caught and
reported with its message or the fallback text; with isEnabled false it
reports the failure result with message Updates not enabled, without any
call. When isEnabled is true but reloadAsync is not callable, the call
expression raises a TypeError, caught by the same catch. -/
def exitWithReload (rt : Runtime) : ExecOutcome :=
  if rt.updatesIsEnabled then
    if rt.reloadCallable then
      match rt.reloadOutcome with
      | .ok =>
        { result := { success := true, strategy := .reload, error := none },
          events := [Event.invokeReload], pending := [] }
      | .throws e =>
        { result := { success := false, strategy := .reload,
                      error := some (messageOr "Reload failed" e) },
          events := [Event.invokeReload], pending := [] }
    else
      { result := { success := false, strategy := .reload,
                    error := some rt.reloadTypeErrorMessage },
        events := [], pending := [] }
  else
    { result := { success := false, strategy := .reload, error := some "Updates not enabled" },
      events := [], pending := [] }

/-- exitWithForceCrash: inside try/catch, schedules via setTimeout a delayed
callback that raises a fatal error carrying errorMessage after delay
milliseconds, then immediately returns success. Only a synchronous throw of
the scheduling step itself is caught and reported as a failure; the delayed
callback is outside the try by the time it runs. -/
def exitWithForceCrash (rt : Runtime) (errorMessage : String) (delay : Nat) : ExecOutcome :=
  match rt.setTimeoutOutcome with
  | .ok =>
    { result := { success := true, strategy := .forceCrash, error := none },
      events := [Event.scheduleCrash errorMessage delay],
      pending := [(errorMessage, delay)] }
  | .throws e =>
    { result := { success := false, strategy := .forceCrash,
                  error := some (messageOr "Force crash failed" e) },
      events := [], pending := [] }

/-- The back-handler-then-crash tail of the graceful chain. -/
def backThenCrash (rt : Runtime) (config : RequiredExitOptions) : ExecOutcome :=
  let backHandlerResult := exitWithBackHandler rt
  if backHandlerResult.result.success then backHandlerResult
  else seqOutcome backHandlerResult (exitWithForceCrash rt config.errorMessage config.forceDelay)

/-- exitGracefully: the fallback chain reload, then BackHandler, then force
crash, short-circuiting on the first success; the reload step runs only
when the merged useReload is true. -/
def exitGracefully (rt : Runtime) (config : RequiredExitOptions) : ExecOutcome :=
  if config.useReload then
    let reloadResult := exitWithReload rt
    if reloadResult.result.success then reloadResult
    else seqOutcome reloadResult (backThenCrash rt config)
  else
    backThenCrash rt config

/-- The switch body of exitWithStrategy: merges the options and dispatches
on the strategy, the default case of the switch mapping to the graceful
chain. Each handler catches its own exceptions, so the dispatch completes
normally on every input; the Except layer records that an escaped exception
would have been possible for the outer catch to observe. -/
def dispatchExc (rt : Runtime) (strategy : ExitStrategy) (options : ExitOptions) :
    Except JSError ExecOutcome :=
  let config := mergeOptions options
  match strategy with
  | .backHandler => Except.ok (exitWithBackHandler rt)
  | .reload => Except.ok (exitWithReload rt)
  | .forceCrash => Except.ok (exitWithForceCrash rt config.errorMessage config.forceDelay)
  | .graceful => Except.ok (exitGracefully rt config)

/-- The catch-all wrapped around the dispatch in exitWithStrategy: a normal
completion passes through; an escaped exception is converted to a failure
result tagged with the requested strategy and carrying the thrown message,
or Unknown error when the thrown value carries none. -/
def toplevelCatch (strategy : ExitStrategy) : Except JSError ExecOutcome → ExecOutcome
  | .ok o => o
  | .error e =>
    { result := { success := false, strategy := strategy,
                  error := some (messageOr "Unknown error" e) },
      events := [], pending := [] }

/-- exitWithStrategy: merge, dispatch, catch-all. -/
def exitWithStrategy (rt : Runtime) (strategy : ExitStrategy) (options : ExitOptions) :
    ExecOutcome :=
  toplevelCatch strategy (dispatchExc rt strategy options)

/-- exit: the convenience graceful entry point. It merges the options into a
full config and forwards that config, with every field present, to
exitWithStrategy with the GRACEFUL strategy. -/
def exit (rt : Runtime) (options : ExitOptions) : ExecOutcome :=
  let config := mergeOptions options
  exitWithStrategy rt .graceful (requiredToOptions config)

/-- isBackHandlerSupported: typeof BackHandler?.exitApp === function. -/
def isBackHandlerSupported (rt : Runtime) : Bool :=
  rt.backHandlerCallable

/-- isReloadSupported: Updates.isEnabled and typeof Updates.reloadAsync ===
function. -/
def isReloadSupported (rt : Runtime) : Bool :=
  rt.updatesIsEnabled && rt.reloadCallable

/-- getSupportedStrategies: starts from force crash, pushes the back-handler
strategy when supported, then the reload strategy when supported, and ends
with graceful. -/
def getSupportedStrategies (rt : Runtime) : List ExitStrategy :=
  [ExitStrategy.forceCrash]
    ++ (if isBackHandlerSupported rt then [ExitStrategy.backHandler] else [])
    ++ (if isReloadSupported rt then [ExitStrategy.reload] else [])
    ++ [ExitStrategy.graceful]

/-- A runtime where every capability is present and every primitive
succeeds. -/
def rtAllOk : Runtime :=
  { backHandlerCallable := true, backHandlerOutcome := .ok,
    backHandlerTypeErrorMessage := "BackHandler.exitApp is not a function",
    updatesIsEnabled := true, reloadCallable := true, reloadOutcome := .ok,
    reloadTypeErrorMessage := "Updates.reloadAsync is not a function",
    errorUtilsHookPresent := false, setTimeoutOutcome := .ok }

/-- A runtime where neither the back-handler nor the reload capability is
available; only scheduling the crash works. -/
def rtNothing : Runtime :=
  { backHandlerCallable := false, backHandlerOutcome := .ok,
    backHandlerTypeErrorMessage := "BackHandler.exitApp is not a function",
    updatesIsEnabled := false, reloadCallable := false, reloadOutcome := .ok,
    reloadTypeErrorMessage := "Updates.reloadAsync is not a function",
    errorUtilsHookPresent := false, setTimeoutOutcome := .ok }

/-- A runtime where the reload subsystem reports itself enabled yet its
reload primitive is not callable, so calling it raises a TypeError. -/
def rtEnabledNotCallable : Runtime :=
  { backHandlerCallable := false, backHandlerOutcome := .ok,
    backHandlerTypeErrorMessage := "BackHandler.exitApp is not a function",
    updatesIsEnabled := true, reloadCallable := false, reloadOutcome := .ok,
    reloadTypeErrorMessage := "Updates.reloadAsync is not a function",
    errorUtilsHookPresent := false, setTimeoutOutcome := .ok }

/-- An options record selecting useReload false and leaving the rest to the
defaults. -/
def optsNoReload : ExitOptions :=
  { errorMessage := none, useReload := some false, forceDelay := none }

/-- An options record carrying only forceDelay 5. -/
def optsDelay5 : ExitOptions :=
  { errorMessage := none, useReload := none, forceDelay := some 5 }

/-- An options record with all three fields provided by the caller. -/
def optsAllSet : ExitOptions :=
  { errorMessage := some "Bye", useReload := some false, forceDelay := some 7 }

end ExitApp

open ExitApp

/-- Claim C1: for every strategy and every options record, exitWithStrategy
never raises synchronously and always returns an ExitResult: the dispatch
always completes normally (every handler catches its own exceptions), and
the top-level catch-all converts any exception that would escape a handler
into a failure result tagged with the requested strategy and carrying the
thrown message, or Unknown error when the thrown value carries none. -/
theorem c1_executeStrategy_total_and_catch_all (rt : Runtime) (strategy : ExitStrategy)
    (options : ExitOptions) (e : JSError) :
    (∃ o, dispatchExc rt strategy options = Except.ok o ∧
      exitWithStrategy rt strategy options = o) ∧
    toplevelCatch strategy (Except.error e) =
      { result := { success := false, strategy := strategy,
                    error := some (messageOr "Unknown error" e) },
        events := [], pending := [] } ∧
    (∀ m, messageOr "Unknown error" (JSError.jsError m) = m) ∧
    messageOr "Unknown error" JSError.nonError = "Unknown error" := by
  refine ⟨?_, rfl, fun m => rfl, rfl⟩
  cases strategy <;> exact ⟨_, rfl, rfl⟩

/-- Claim C2: the graceful chain runs reload, back-handler, force-crash in
order and short-circuits on the first success: with the merged useReload
true and a successful reload, the reload outcome is returned unchanged and
neither the back-handler nor the crash scheduling is ever invoked; with
useReload false or a failed reload, a failed back-handler attempt is
unconditionally followed by the force-crash step, whose result is
returned. -/
theorem c2_graceful_fallback_chain (rt : Runtime) (options : ExitOptions) :
    ((mergeOptions options).useReload = true →
      (exitWithReload rt).result.success = true →
      exitWithStrategy rt .graceful options = exitWithReload rt ∧
      Event.invokeBackHandler ∉ (exitWithStrategy rt .graceful options).events ∧
      (∀ m d, Event.scheduleCrash m d ∉ (exitWithStrategy rt .graceful options).events)) ∧
    (((mergeOptions options).useReload = false ∨ (exitWithReload rt).result.success = false) →
      (exitWithBackHandler rt).result.success = false →
      (exitWithStrategy rt .graceful options).result =
        (exitWithForceCrash rt (mergeOptions options).errorMessage
          (mergeOptions options).forceDelay).result) := by
  constructor
  · intro h1 h2
    have hg : exitWithStrategy rt .graceful options = exitWithReload rt := by
      simp [exitWithStrategy, dispatchExc, toplevelCatch, exitGracefully, h1, h2]
    refine ⟨hg, ?_, ?_⟩
    · rw [hg]
      unfold exitWithReload
      cases hue : rt.updatesIsEnabled <;> simp [hue]
      cases hrc : rt.reloadCallable <;> simp [hrc]
      cases rt.reloadOutcome <;> simp
    · intro m d
      rw [hg]
      unfold exitWithReload
      cases hue : rt.updatesIsEnabled <;> simp [hue]
      cases hrc : rt.reloadCallable <;> simp [hrc]
      cases rt.reloadOutcome <;> simp
  · intro h1 h2
    have hb : (exitWithStrategy rt .graceful options).result =
        (backThenCrash rt (mergeOptions options)).result := by
      rcases h1 with h1 | h1
      · simp [exitWithStrategy, dispatchExc, toplevelCatch, exitGracefully, h1]
      · cases h3 : (mergeOptions options).useReload
        · simp [exitWithStrategy, dispatchExc, toplevelCatch, exitGracefully, h3]
        · simp [exitWithStrategy, dispatchExc, toplevelCatch, exitGracefully, h3, h1,
            seqOutcome]
    rw [hb]
    simp [backThenCrash, h2, seqOutcome]

/-- Witness for claim C2, applying the theorem in both scenarios: a runtime
where the reload succeeds under the default options, and a runtime without
back-handler or reload capability under options with useReload false. -/
theorem c2_graceful_fallback_chain_witness :
    ((mergeOptions ({} : ExitOptions)).useReload = true ∧
      (exitWithReload rtAllOk).result.success = true ∧
      exitWithStrategy rtAllOk .graceful {} = exitWithReload rtAllOk) ∧
    ((mergeOptions optsNoReload).useReload = false ∧
      (exitWithBackHandler rtNothing).result.success = false ∧
      (exitWithStrategy rtNothing .graceful optsNoReload).result =
        (exitWithForceCrash rtNothing (mergeOptions optsNoReload).errorMessage
          (mergeOptions optsNoReload).forceDelay).result) := by
  have h1 : (mergeOptions ({} : ExitOptions)).useReload = true := rfl
  have h2 : (exitWithReload rtAllOk).result.success = true := rfl
  have h3 : (mergeOptions optsNoReload).useReload = false := rfl
  have h4 : (exitWithBackHandler rtNothing).result.success = false := rfl
  exact ⟨⟨h1, h2, ((c2_graceful_fallback_chain rtAllOk {}).1 h1 h2).1⟩,
    ⟨h3, h4, (c2_graceful_fallback_chain rtNothing optsNoReload).2 (Or.inl h3) h4⟩⟩

/-- Counterexample to claim C3 as stated: at a runtime where the reload
subsystem reports itself enabled but its reload primitive is not callable,
isReloadSupported is false, yet the returned error is the raised TypeError
message rather than Updates not enabled. -/
theorem c3_reload_unsupported_counterexample :
    isReloadSupported rtEnabledNotCallable = false ∧
    (exitWithStrategy rtEnabledNotCallable .reload {}).result ≠
      { success := false, strategy := .reload, error := some "Updates not enabled" } := by
  refine ⟨rfl, ?_⟩
  intro h
  have := congrArg ExitResult.error h
  simp [exitWithStrategy, dispatchExc, toplevelCatch, exitWithReload,
    rtEnabledNotCallable] at this

/-- Claim C3 as amended: whenever the reload subsystem does not report
itself enabled, exitWithStrategy with the reload strategy returns the
failure result with error Updates not enabled, without calling the reload
primitive; more generally, whenever isReloadSupported is false the call
returns success false without ever invoking the reload primitive (when
isEnabled is true but the primitive is not callable, the error carries the
raised TypeError message instead of Updates not enabled). -/
theorem c3_reload_not_enabled_amended (rt : Runtime) (options : ExitOptions) :
    (rt.updatesIsEnabled = false →
      (exitWithStrategy rt .reload options).result =
        { success := false, strategy := .reload, error := some "Updates not enabled" } ∧
      Event.invokeReload ∉ (exitWithStrategy rt .reload options).events) ∧
    (isReloadSupported rt = false →
      (exitWithStrategy rt .reload options).result.success = false ∧
      Event.invokeReload ∉ (exitWithStrategy rt .reload options).events) := by
  constructor
  · intro h
    simp [exitWithStrategy, dispatchExc, toplevelCatch, exitWithReload, h]
  · intro h
    cases hue : rt.updatesIsEnabled
    · simp [exitWithStrategy, dispatchExc, toplevelCatch, exitWithReload, hue]
    · have hrc : rt.reloadCallable = false := by
        simpa [isReloadSupported, hue] using h
      simp [exitWithStrategy, dispatchExc, toplevelCatch, exitWithReload, hue, hrc]

/-- Witness for the amended claim C3: both hypotheses discharged at the
runtime without reload capability. -/
theorem c3_reload_not_enabled_amended_witness :
    rtNothing.updatesIsEnabled = false ∧
    isReloadSupported rtNothing = false ∧
    (exitWithStrategy rtNothing .reload {}).result =
      { success := false, strategy := .reload, error := some "Updates not enabled" } ∧
    Event.invokeReload ∉ (exitWithStrategy rtNothing .reload {}).events := by
  have h1 : rtNothing.updatesIsEnabled = false := rfl
  have h2 : isReloadSupported rtNothing = false := rfl
  obtain ⟨ha, hb⟩ := (c3_reload_not_enabled_amended rtNothing {}).1 h1
  exact ⟨h1, h2, ha, hb⟩

/-- Claim C4: for every errorMessage and forceDelay, exitWithStrategy with
the force-crash strategy returns success synchronously, with the fatal
action carrying errorMessage still pending (scheduled, not fired) when the
call returns; the fatal event, through the ErrorUtils hook or an unhandled
throw, is observed only when the pending timer fires afterwards. Only a
synchronous throw of the scheduling step itself is caught and reported as a
failure result. -/
theorem c4_force_crash_reports_success_before_firing (rt : Runtime) (msg : String)
    (delay : Nat) (options : ExitOptions) (hmsg : options.errorMessage = some msg)
    (hdelay : options.forceDelay = some delay) :
    (rt.setTimeoutOutcome = .ok →
      (exitWithStrategy rt .forceCrash options).result =
        { success := true, strategy := .forceCrash, error := none } ∧
      (exitWithStrategy rt .forceCrash options).events = [Event.scheduleCrash msg delay] ∧
      (∀ m, Event.reportFatalError m ∉ (exitWithStrategy rt .forceCrash options).events ∧
        Event.throwUnhandled m ∉ (exitWithStrategy rt .forceCrash options).events) ∧
      (exitWithStrategy rt .forceCrash options).pending = [(msg, delay)] ∧
      (Event.reportFatalError msg ∈
          runPending rt (exitWithStrategy rt .forceCrash options).pending ∨
        Event.throwUnhandled msg ∈
          runPending rt (exitWithStrategy rt .forceCrash options).pending)) ∧
    (∀ e, rt.setTimeoutOutcome = .throws e →
      (exitWithStrategy rt .forceCrash options).result =
        { success := false, strategy := .forceCrash,
          error := some (messageOr "Force crash failed" e) } ∧
      (exitWithStrategy rt .forceCrash options).pending = []) := by
  constructor
  · intro h
    refine ⟨?_, ?_, ?_, ?_, ?_⟩ <;>
      simp [exitWithStrategy, dispatchExc, toplevelCatch, exitWithForceCrash,
        mergeOptions, hmsg, hdelay, h, runPending]
    cases hk : rt.errorUtilsHookPresent <;> simp [hk]
  · intro e h
    constructor <;>
      simp [exitWithStrategy, dispatchExc, toplevelCatch, exitWithForceCrash,
        mergeOptions, hmsg, hdelay, h]

/-- Witness for claim C4, applied at two runtimes: one whose scheduling step
succeeds and one whose scheduling step throws synchronously. -/
theorem c4_force_crash_witness :
    (({ errorMessage := some "X", useReload := none,
        forceDelay := some 0 } : ExitOptions).errorMessage = some "X" ∧
      rtNothing.setTimeoutOutcome = CallOutcome.ok ∧
      (exitWithStrategy rtNothing .forceCrash
          { errorMessage := some "X", useReload := none, forceDelay := some 0 }).result =
        { success := true, strategy := .forceCrash, error := none } ∧
      (exitWithStrategy rtNothing .forceCrash
          { errorMessage := some "X", useReload := none, forceDelay := some 0 }).pending =
        [("X", 0)]) ∧
    ({ rtNothing with setTimeoutOutcome := .throws JSError.nonError }.setTimeoutOutcome =
        CallOutcome.throws JSError.nonError ∧
      (exitWithStrategy { rtNothing with setTimeoutOutcome := .throws JSError.nonError }
          .forceCrash
          { errorMessage := some "X", useReload := none, forceDelay := some 0 }).result =
        { success := false, strategy := .forceCrash,
          error := some "Force crash failed" }) := by
  have ha := (c4_force_crash_reports_success_before_firing rtNothing "X" 0
    { errorMessage := some "X", useReload := none, forceDelay := some 0 } rfl rfl).1 rfl
  have hb := (c4_force_crash_reports_success_before_firing
    { rtNothing with setTimeoutOutcome := .throws JSError.nonError } "X" 0
    { errorMessage := some "X", useReload := none, forceDelay := some 0 } rfl rfl).2
    JSError.nonError rfl
  exact ⟨⟨rfl, rfl, ha.1, ha.2.2.2.1⟩, ⟨rfl, hb.1⟩⟩

/-- Every back-handler attempt is tagged with the backHandler strategy. -/
theorem exitWithBackHandler_strategy_eq (rt : Runtime) :
    (exitWithBackHandler rt).result.strategy = .backHandler := by
  unfold exitWithBackHandler
  cases h1 : rt.backHandlerCallable <;> simp [h1]
  cases rt.backHandlerOutcome <;> simp

/-- Every reload attempt is tagged with the reload strategy. -/
theorem exitWithReload_strategy_eq (rt : Runtime) :
    (exitWithReload rt).result.strategy = .reload := by
  unfold exitWithReload
  cases h1 : rt.updatesIsEnabled <;> simp [h1]
  cases h2 : rt.reloadCallable <;> simp [h2]
  cases rt.reloadOutcome <;> simp

/-- Every force-crash attempt is tagged with the forceCrash strategy. -/
theorem exitWithForceCrash_strategy_eq (rt : Runtime) (msg : String) (delay : Nat) :
    (exitWithForceCrash rt msg delay).result.strategy = .forceCrash := by
  unfold exitWithForceCrash
  cases rt.setTimeoutOutcome <;> simp

/-- The graceful chain returns the result of one of the three leaf
handlers. -/
theorem exitGracefully_result_cases (rt : Runtime) (config : RequiredExitOptions) :
    (exitGracefully rt config).result = (exitWithReload rt).result ∨
    (exitGracefully rt config).result = (exitWithBackHandler rt).result ∨
    (exitGracefully rt config).result =
      (exitWithForceCrash rt config.errorMessage config.forceDelay).result := by
  unfold exitGracefully backThenCrash
  cases h1 : config.useReload <;> simp [h1]
  · cases h2 : (exitWithBackHandler rt).result.success <;> simp [h2, seqOutcome]
  · cases h3 : (exitWithReload rt).result.success <;> simp [h3, seqOutcome]
    cases h2 : (exitWithBackHandler rt).result.success <;> simp [h2, seqOutcome]

/-- Claim C5: a graceful request, through exitWithStrategy or the
convenience entry point exit, always reports one of the three leaf
strategies and never the literal graceful value. -/
theorem c5_graceful_result_is_leaf (rt : Runtime) (options : ExitOptions) :
    ((exitWithStrategy rt .graceful options).result.strategy = .reload ∨
      (exitWithStrategy rt .graceful options).result.strategy = .backHandler ∨
      (exitWithStrategy rt .graceful options).result.strategy = .forceCrash) ∧
    (exitWithStrategy rt .graceful options).result.strategy ≠ .graceful ∧
    ((exit rt options).result.strategy = .reload ∨
      (exit rt options).result.strategy = .backHandler ∨
      (exit rt options).result.strategy = .forceCrash) ∧
    (exit rt options).result.strategy ≠ .graceful := by
  have hA : exitWithStrategy rt .graceful options = exitGracefully rt (mergeOptions options) :=
    rfl
  have hB : exit rt options =
      exitGracefully rt (mergeOptions (requiredToOptions (mergeOptions options))) := rfl
  rw [hA, hB]
  have h1 := exitGracefully_result_cases rt (mergeOptions options)
  have h2 := exitGracefully_result_cases rt (mergeOptions (requiredToOptions (mergeOptions options)))
  have l1 : ((exitGracefully rt (mergeOptions options)).result.strategy = .reload ∨
      (exitGracefully rt (mergeOptions options)).result.strategy = .backHandler ∨
      (exitGracefully rt (mergeOptions options)).result.strategy = .forceCrash) := by
    rcases h1 with h | h | h <;> rw [h] <;>
      simp [exitWithReload_strategy_eq, exitWithBackHandler_strategy_eq,
        exitWithForceCrash_strategy_eq]
  have l2 : ((exitGracefully rt
        (mergeOptions (requiredToOptions (mergeOptions options)))).result.strategy = .reload ∨
      (exitGracefully rt
        (mergeOptions (requiredToOptions (mergeOptions options)))).result.strategy =
        .backHandler ∨
      (exitGracefully rt
        (mergeOptions (requiredToOptions (mergeOptions options)))).result.strategy =
        .forceCrash) := by
    rcases h2 with h | h | h <;> rw [h] <;>
      simp [exitWithReload_strategy_eq, exitWithBackHandler_strategy_eq,
        exitWithForceCrash_strategy_eq]
  refine ⟨l1, ?_, l2, ?_⟩
  · rcases l1 with h | h | h <;> simp [h]
  · rcases l2 with h | h | h <;> simp [h]

/-- A back-handler result carries an error exactly when it failed. -/
theorem exitWithBackHandler_error_iff (rt : Runtime) :
    ((exitWithBackHandler rt).result.error.isSome ↔
      (exitWithBackHandler rt).result.success = false) := by
  unfold exitWithBackHandler
  cases h1 : rt.backHandlerCallable <;> simp [h1]
  cases rt.backHandlerOutcome <;> simp

/-- A reload result carries an error exactly when it failed. -/
theorem exitWithReload_error_iff (rt : Runtime) :
    ((exitWithReload rt).result.error.isSome ↔
      (exitWithReload rt).result.success = false) := by
  unfold exitWithReload
  cases h1 : rt.updatesIsEnabled <;> simp [h1]
  cases h2 : rt.reloadCallable <;> simp [h2]
  cases rt.reloadOutcome <;> simp

/-- A force-crash result carries an error exactly when it failed. -/
theorem exitWithForceCrash_error_iff (rt : Runtime) (msg : String) (delay : Nat) :
    ((exitWithForceCrash rt msg delay).result.error.isSome ↔
      (exitWithForceCrash rt msg delay).result.success = false) := by
  unfold exitWithForceCrash
  cases rt.setTimeoutOutcome <;> simp

/-- Claim C6: in every ExitResult produced by a strategy handler, and hence
by the public dispatch, the error field is present exactly when success is
false; successful results carry no error and failed results carry a
failure reason string. -/
theorem c6_error_present_iff_failure (rt : Runtime) (msg : String) (delay : Nat)
    (strategy : ExitStrategy) (options : ExitOptions) :
    ((exitWithBackHandler rt).result.error.isSome ↔
      (exitWithBackHandler rt).result.success = false) ∧
    ((exitWithReload rt).result.error.isSome ↔
      (exitWithReload rt).result.success = false) ∧
    ((exitWithForceCrash rt msg delay).result.error.isSome ↔
      (exitWithForceCrash rt msg delay).result.success = false) ∧
    ((exitWithStrategy rt strategy options).result.error.isSome ↔
      (exitWithStrategy rt strategy options).result.success = false) := by
  refine ⟨exitWithBackHandler_error_iff rt, exitWithReload_error_iff rt,
    exitWithForceCrash_error_iff rt msg delay, ?_⟩
  cases strategy
  · exact exitWithBackHandler_error_iff rt
  · exact exitWithReload_error_iff rt
  · exact exitWithForceCrash_error_iff rt (mergeOptions options).errorMessage
      (mergeOptions options).forceDelay
  · have hA : exitWithStrategy rt .graceful options =
        exitGracefully rt (mergeOptions options) := rfl
    rw [hA]
    rcases exitGracefully_result_cases rt (mergeOptions options) with h | h | h <;> rw [h]
    · exact exitWithReload_error_iff rt
    · exact exitWithBackHandler_error_iff rt
    · exact exitWithForceCrash_error_iff rt (mergeOptions options).errorMessage
        (mergeOptions options).forceDelay

/-- Claim C7: whenever the back-handler capability probe is false (the
native-exit primitive is not a callable function), exitWithStrategy with
the back-handler strategy returns a failure result without ever invoking
the primitive. -/
theorem c7_backhandler_unsupported_fails (rt : Runtime) (options : ExitOptions)
    (h : isBackHandlerSupported rt = false) :
    (exitWithStrategy rt .backHandler options).result.success = false ∧
    Event.invokeBackHandler ∉ (exitWithStrategy rt .backHandler options).events := by
  have hc : rt.backHandlerCallable = false := by simpa [isBackHandlerSupported] using h
  constructor <;>
    simp [exitWithStrategy, dispatchExc, toplevelCatch, exitWithBackHandler, hc]

/-- Witness for claim C7 at the runtime without a callable back-handler
primitive. -/
theorem c7_backhandler_unsupported_fails_witness :
    isBackHandlerSupported rtNothing = false ∧
    (exitWithStrategy rtNothing .backHandler {}).result.success = false ∧
    Event.invokeBackHandler ∉ (exitWithStrategy rtNothing .backHandler {}).events := by
  have h : isBackHandlerSupported rtNothing = false := rfl
  obtain ⟨ha, hb⟩ := c7_backhandler_unsupported_fails rtNothing {} h
  exact ⟨h, ha, hb⟩

/-- Claim C8: the supported-strategies report always starts with forceCrash
and ends with graceful, contains backHandler exactly when its probe is
true and reload exactly when its probe is true, and the whole list is
always one of the four lists obtained from the fixed order forceCrash,
backHandler, reload, graceful by keeping or dropping the two conditional
entries. -/
theorem c8_supported_strategies_shape (rt : Runtime) :
    (getSupportedStrategies rt = [ExitStrategy.forceCrash, ExitStrategy.graceful] ∨
      getSupportedStrategies rt =
        [ExitStrategy.forceCrash, ExitStrategy.backHandler, ExitStrategy.graceful] ∨
      getSupportedStrategies rt =
        [ExitStrategy.forceCrash, ExitStrategy.reload, ExitStrategy.graceful] ∨
      getSupportedStrategies rt =
        [ExitStrategy.forceCrash, ExitStrategy.backHandler, ExitStrategy.reload,
          ExitStrategy.graceful]) ∧
    (getSupportedStrategies rt).head? = some ExitStrategy.forceCrash ∧
    (getSupportedStrategies rt).getLast? = some ExitStrategy.graceful ∧
    (ExitStrategy.backHandler ∈ getSupportedStrategies rt ↔
      isBackHandlerSupported rt = true) ∧
    (ExitStrategy.reload ∈ getSupportedStrategies rt ↔ isReloadSupported rt = true) ∧
    ExitStrategy.forceCrash ∈ getSupportedStrategies rt ∧
    ExitStrategy.graceful ∈ getSupportedStrategies rt := by
  cases h1 : isBackHandlerSupported rt <;> cases h2 : isReloadSupported rt <;>
    simp [getSupportedStrategies, h1, h2]

/-- Claim C9: the merged configuration fills every omitted field from the
default record, keeps every provided field, and is exactly what every
strategy path consumes: re-running the dispatch on the already-merged
record changes nothing; merging a record carrying only forceDelay 5 gives
errorMessage App terminated, useReload true, forceDelay 5. -/
theorem c9_options_merge_defaults (options : ExitOptions) :
    (options.errorMessage = none → (mergeOptions options).errorMessage = "App terminated") ∧
    (options.useReload = none → (mergeOptions options).useReload = true) ∧
    (options.forceDelay = none → (mergeOptions options).forceDelay = 100) ∧
    (∀ s, options.errorMessage = some s → (mergeOptions options).errorMessage = s) ∧
    (∀ b, options.useReload = some b → (mergeOptions options).useReload = b) ∧
    (∀ n, options.forceDelay = some n → (mergeOptions options).forceDelay = n) ∧
    (∀ rt strategy, exitWithStrategy rt strategy options =
      exitWithStrategy rt strategy (requiredToOptions (mergeOptions options))) ∧
    mergeOptions { errorMessage := none, useReload := none, forceDelay := some 5 } =
      { errorMessage := "App terminated", useReload := true, forceDelay := 5 } := by
  refine ⟨fun h => by simp [mergeOptions, defaultOptions, h],
    fun h => by simp [mergeOptions, defaultOptions, h],
    fun h => by simp [mergeOptions, defaultOptions, h],
    fun s h => by simp [mergeOptions, h],
    fun b h => by simp [mergeOptions, h],
    fun n h => by simp [mergeOptions, h],
    fun rt strategy => ?_, rfl⟩
  have hm : mergeOptions (requiredToOptions (mergeOptions options)) = mergeOptions options := by
    simp [mergeOptions, requiredToOptions]
  simp [exitWithStrategy, dispatchExc, hm]

/-- Witness for claim C9, applying the theorem at a record carrying only
forceDelay 5, at a record with all three fields present, and at the empty
record for the dispatch-consumption part. -/
theorem c9_options_merge_defaults_witness :
    ((mergeOptions optsDelay5).errorMessage = "App terminated" ∧
      (mergeOptions optsDelay5).useReload = true ∧
      (mergeOptions optsDelay5).forceDelay = 5) ∧
    ((mergeOptions optsAllSet).errorMessage = "Bye" ∧
      (mergeOptions optsAllSet).useReload = false ∧
      (mergeOptions optsAllSet).forceDelay = 7) ∧
    exitWithStrategy rtNothing .graceful {} =
      exitWithStrategy rtNothing .graceful (requiredToOptions (mergeOptions {})) := by
  have hA := c9_options_merge_defaults optsDelay5
  have hB := c9_options_merge_defaults optsAllSet
  have hC := c9_options_merge_defaults ({} : ExitOptions)
  exact ⟨⟨hA.1 rfl, hA.2.1 rfl, hA.2.2.2.2.2.1 5 rfl⟩,
    ⟨hB.2.2.2.1 "Bye" rfl, hB.2.2.2.2.1 false rfl, hB.2.2.2.2.2.1 7 rfl⟩,
    hC.2.2.2.2.2.2.1 rtNothing .graceful⟩

/-- Claim C10: for every options record and every external capability
state, the convenience entry point exit returns exactly the outcome of
exitWithStrategy with the graceful strategy on the same options. -/
theorem c10_exit_equals_graceful_strategy (rt : Runtime) (options : ExitOptions) :
    exit rt options = exitWithStrategy rt .graceful options := by
  have hm : mergeOptions (requiredToOptions (mergeOptions options)) = mergeOptions options := by
    simp [mergeOptions, requiredToOptions]
  simp [exit, exitWithStrategy, dispatchExc, hm]
